import Mathlib

/-!
Shallow embedding of `src/repricer.py` (class `SimpleManaPoolPricer`).

Monetary values are modelled as rationals (the Python code uses floats;
the arithmetic here is the ideal real-number semantics of the same
expressions).  The configuration constants that the Python class reads
from module-level constants become a `Config` record.  The human-readable
reason string built by `calculate_new_price` is modelled by the structured
type `Reason`: one constructor per distinct base message of the source,
carrying exactly the numeric values interpolated into the string, plus the
two booleans recording whether the min-price clamp and the max-reduction
cap appended their suffixes.  At a fixed configuration this mapping is
injective into the strings the Python code produces.
-/

namespace Repricer

/-- Configuration: `PRICING_STRATEGY`, `LP_FLOOR_PERCENT`, `MIN_PRICE`,
`MAX_REDUCTION_PERCENT` from the CONFIGURATION section of `repricer.py`. -/
structure Config where
  pricing_strategy : String
  lp_floor_percent : ℚ
  min_price : ℚ
  max_reduction_percent : ℚ
  deriving DecidableEq

/-- The base part of the reason string of `calculate_new_price`:
one constructor per message, carrying the interpolated values. -/
inductive BaseReason where
  | noNMPrice
  | noLPPlusPrice
  | noPricingData
  | noGeneralPrice
  | nmPrice (p : ℚ)
  | lpPlusPrice (p : ℚ)
  | averageOf (n : ℕ) (p : ℚ)
  | generalPrice (p : ℚ)
  | nmBase (nm : ℚ) (lpFloorApplied : Option ℚ)
  deriving DecidableEq

/-- The full reason value: the base message plus whether the
`(min: $...)` and `(capped at ...% reduction)` suffixes were appended. -/
structure Reason where
  base : BaseReason
  min_applied : Bool
  cap_applied : Bool
  deriving DecidableEq

/-- Lines 251-254 of `repricer.py`: clamp the candidate up to
`self.min_price`; the `Bool` records whether the clamp fired
(i.e. whether the `(min: $...)` suffix was appended). -/
def min_clamp (cfg : Config) (p : ℚ) : ℚ × Bool :=
  if p < cfg.min_price then (cfg.min_price, true) else (p, false)

/-- Lines 256-262 of `repricer.py`: if the current price is positive,
clamp the candidate up to `current_price - current_price * (max_reduction_percent / 100)`;
the `Bool` records whether the cap fired. -/
def reduction_cap (cfg : Config) (current_price p : ℚ) : ℚ × Bool :=
  if 0 < current_price then
    if p < current_price - current_price * (cfg.max_reduction_percent / 100) then
      (current_price - current_price * (cfg.max_reduction_percent / 100), true)
    else (p, false)
  else (p, false)

/-- The post-processing tail of `calculate_new_price` (lines 251-264):
minimum-price clamp then maximum-reduction cap, applied to the pair
(candidate price, base reason) produced by strategy selection. -/
def apply_bounds (cfg : Config) (current_price : ℚ) (pr : ℚ × BaseReason) : ℚ × Reason :=
  ((reduction_cap cfg current_price (min_clamp cfg pr.1).1).1,
   { base := pr.2,
     min_applied := (min_clamp cfg pr.1).2,
     cap_applied := (reduction_cap cfg current_price (min_clamp cfg pr.1).1).2 })

/-- The strategy-dispatch head of `calculate_new_price` (lines 211-249):
an `Except.error` is one of the early `return None, reason` exits, an
`Except.ok` is the (pre-clamp candidate price, base reason) pair flowing
into the post-processing.  The trailing `else` branch is the
`nm_with_floor` default, exactly as in the source. -/
def strategy_select (cfg : Config) (nm_price lp_plus_price general_price : Option ℚ) :
    Except BaseReason (ℚ × BaseReason) :=
  if cfg.pricing_strategy = "nm_only" then
    match nm_price with
    | none => Except.error BaseReason.noNMPrice
    | some nm => Except.ok (nm, BaseReason.nmPrice nm)
  else if cfg.pricing_strategy = "lp_plus" then
    match lp_plus_price with
    | none => Except.error BaseReason.noLPPlusPrice
    | some lp => Except.ok (lp, BaseReason.lpPlusPrice lp)
  else if cfg.pricing_strategy = "average" then
    if (List.filterMap id [nm_price, lp_plus_price]).isEmpty then
      Except.error BaseReason.noPricingData
    else
      Except.ok ((List.filterMap id [nm_price, lp_plus_price]).sum /
                  ((List.filterMap id [nm_price, lp_plus_price]).length : ℚ),
        BaseReason.averageOf (List.filterMap id [nm_price, lp_plus_price]).length
          ((List.filterMap id [nm_price, lp_plus_price]).sum /
            ((List.filterMap id [nm_price, lp_plus_price]).length : ℚ)))
  else if cfg.pricing_strategy = "general_low" then
    match general_price with
    | none => Except.error BaseReason.noGeneralPrice
    | some g => Except.ok (g, BaseReason.generalPrice g)
  else
    match nm_price with
    | none => Except.error BaseReason.noNMPrice
    | some nm =>
      match lp_plus_price with
      | none => Except.ok (nm, BaseReason.nmBase nm none)
      | some lp =>
        if nm < lp * (cfg.lp_floor_percent / 100) then
          Except.ok (lp * (cfg.lp_floor_percent / 100),
            BaseReason.nmBase nm (some (lp * (cfg.lp_floor_percent / 100))))
        else Except.ok (nm, BaseReason.nmBase nm none)

/-- `calculate_new_price` (lines 198-264 of `repricer.py`): strategy
selection followed, on success, by the two clamps.  Returns
`(new_price?, reason)` exactly as the Python method does. -/
def calculate_new_price (cfg : Config) (current_price : ℚ)
    (nm_price lp_plus_price general_price : Option ℚ) : Option ℚ × Reason :=
  match strategy_select cfg nm_price lp_plus_price general_price with
  | Except.error r => (none, { base := r, min_applied := false, cap_applied := false })
  | Except.ok pr =>
    (some (apply_bounds cfg current_price pr).1, (apply_bounds cfg current_price pr).2)

/-! ## Inventory processing (`process_inventory` and its helpers) -/

/-- The nested `single` dict of an inventory record (lines 307, 314,
329-333): optional fields as read with `.get`.  A missing or empty
`single` dict is modelled as `none` in `Product.single`. -/
structure Single where
  scryfall_id : Option String
  finish_id : Option String
  condition_id : Option String
  language_id : Option String
  name : Option String
  set : Option String
  deriving DecidableEq

/-- The nested `product` dict of an inventory record (lines 306, 315). -/
structure Product where
  id : Option String
  single : Option Single
  deriving DecidableEq

/-- An inventory record as consumed by `process_inventory`
(lines 301-391): `product` nested dict, top-level `price_cents` and
`quantity`.  A missing or empty `product` dict is `none`. -/
structure Item where
  product : Option Product
  price_cents : Option ℤ
  quantity : Option ℤ
  deriving DecidableEq

/-- One price-catalog record (the dict stored in `price_data`): the nine
optional integer minor-currency fields read by `_get_nm_price`,
`_get_lp_plus_price` and `_get_general_price`. -/
structure CardData where
  price_cents_nm : Option ℤ
  price_cents_nm_foil : Option ℤ
  price_cents_nm_etched : Option ℤ
  price_cents_lp_plus : Option ℤ
  price_cents_lp_plus_foil : Option ℤ
  price_cents_lp_plus_etched : Option ℤ
  price_cents : Option ℤ
  price_cents_foil : Option ℤ
  price_cents_etched : Option ℤ
  deriving DecidableEq

/-- Python string truthiness as used on identifiers
(`if scryfall_id:`, `scryfall_id or product_id`, `if not lookup_id:`):
an absent key and an empty string are both falsy. -/
def strTruthy : Option String → Option String
  | none => none
  | some s => if s = "" then none else some s

/-- `_get_nm_price` (lines 410-425): map the finish to the matching
`price_cents_nm*` field, `None` for an unknown finish or a missing
field, otherwise cents divided by 100. -/
def get_nm_price (card_data : CardData) (finish : String) : Option ℚ :=
  if finish = "NF" then (card_data.price_cents_nm).map (fun c => (c : ℚ) / 100)
  else if finish = "FO" then (card_data.price_cents_nm_foil).map (fun c => (c : ℚ) / 100)
  else if finish = "EF" then (card_data.price_cents_nm_etched).map (fun c => (c : ℚ) / 100)
  else none

/-- `_get_lp_plus_price` (lines 427-442), same shape for the
`price_cents_lp_plus*` fields. -/
def get_lp_plus_price (card_data : CardData) (finish : String) : Option ℚ :=
  if finish = "NF" then (card_data.price_cents_lp_plus).map (fun c => (c : ℚ) / 100)
  else if finish = "FO" then (card_data.price_cents_lp_plus_foil).map (fun c => (c : ℚ) / 100)
  else if finish = "EF" then (card_data.price_cents_lp_plus_etched).map (fun c => (c : ℚ) / 100)
  else none

/-- `_get_general_price` (lines 444-460), same shape for the
`price_cents*` general/market fields. -/
def get_general_price (card_data : CardData) (finish : String) : Option ℚ :=
  if finish = "NF" then (card_data.price_cents).map (fun c => (c : ℚ) / 100)
  else if finish = "FO" then (card_data.price_cents_foil).map (fun c => (c : ℚ) / 100)
  else if finish = "EF" then (card_data.price_cents_etched).map (fun c => (c : ℚ) / 100)
  else none

/-- Python `round(x, 2)`: 2-decimal rounding, modelled as rounding the
exact rational to the nearest cent. -/
def round2 (q : ℚ) : ℚ := ((round (q * 100) : ℤ) : ℚ) / 100

/-- Python `int(x)`: truncation toward zero, via truncating integer
division of the rational's numerator by its denominator. -/
def py_int (q : ℚ) : ℤ := Int.tdiv q.num (q.den : ℤ)

/-- An update record appended to `updates` (lines 377-391), API fields
plus the `_`-prefixed report metadata. -/
structure Update where
  scryfall_id : String
  finish_id : String
  condition_id : String
  language_id : String
  price_cents : ℤ
  quantity : ℤ
  name : String
  set : String
  current_price : ℚ
  new_price : ℚ
  reason : Reason
  matched_by : String
  deriving DecidableEq

/-- The data the per-item prologue of the loop body (lines 305-342)
extracts from an inventory record before pricing. -/
structure Resolved where
  card_data : CardData
  finish : String
  condition : String
  language : String
  name : String
  set : String
  current_price : ℚ
  lookup_id : String
  matched_by : String
  quantity : ℤ
  deriving DecidableEq

/-- Lines 329-342: the per-item fields read with their `.get` defaults
(`finish_id`/`NF`, `condition_id`/`NM`, `language_id`/`en`,
`name`/`Unknown`, `set`/`???`, `price_cents`/`0`, `quantity`/`0`),
packaged together with the card data and the chosen lookup id. -/
def mk_resolved (cd : CardData) (single : Single) (item : Item)
    (lookup_id matched_by : String) : Resolved :=
  { card_data := cd
    finish := single.finish_id.getD "NF"
    condition := single.condition_id.getD "NM"
    language := single.language_id.getD "en"
    name := single.name.getD "Unknown"
    set := single.set.getD "???"
    current_price := ((item.price_cents.getD 0 : ℤ) : ℚ) / 100
    lookup_id := lookup_id
    matched_by := matched_by
    quantity := item.quantity.getD 0 }

/-- Lines 305-342: unpack `product`/`single`, look the card up in
`price_data` first by `scryfall_id` then by `product_id`, read the
per-item fields with their defaults, and fail (`none`, counted as
`no_data`) when the record is not a single, has no price data, or has
neither identifier.  The source's `if not lookup_id` check
(lines 339-342) never fires once `card_data` was found, since finding
it requires one of the two identifiers to be truthy; the branch shapes
below reflect that. -/
def resolve_item (price_data : String → Option CardData) (item : Item) : Option Resolved :=
  match item.product with
  | none => none
  | some product =>
    match product.single with
    | none => none
    | some single =>
      match strTruthy single.scryfall_id with
      | some sid =>
        match price_data sid with
        | some cd => some (mk_resolved cd single item sid "scryfall_id")
        | none =>
          match strTruthy product.id with
          | none => none
          | some pid =>
            match price_data pid with
            | none => none
            | some cd => some (mk_resolved cd single item sid "product_id")
      | none =>
        match strTruthy product.id with
        | none => none
        | some pid =>
          match price_data pid with
          | none => none
          | some cd => some (mk_resolved cd single item pid "product_id")

/-- Outcome of one iteration of the `process_inventory` loop body for
one record: skipped and counted under `no_data`, skipped and counted
under `no_change`, or an update appended. -/
inductive ItemOutcome where
  | skipNoData
  | skipNoChange
  | emit (u : Update)
  deriving DecidableEq

/-- Lines 344-391: extract the three reference prices for the record's
finish, call `calculate_new_price`, round to 2 decimals, drop the
record when the rounded price moved by less than a cent, otherwise
build the update record. -/
def price_item (cfg : Config) (res : Resolved) : ItemOutcome :=
  match calculate_new_price cfg res.current_price
      (get_nm_price res.card_data res.finish)
      (get_lp_plus_price res.card_data res.finish)
      (get_general_price res.card_data res.finish) with
  | (none, _) => ItemOutcome.skipNoData
  | (some p, reason) =>
    if |round2 p - res.current_price| < 1 / 100 then ItemOutcome.skipNoChange
    else ItemOutcome.emit
      { scryfall_id := res.lookup_id
        finish_id := res.finish
        condition_id := res.condition
        language_id := res.language
        price_cents := py_int (round2 p * 100)
        quantity := res.quantity
        name := res.name
        set := res.set
        current_price := res.current_price
        new_price := round2 p
        reason := reason
        matched_by := res.matched_by }

/-- One full iteration of the loop body of `process_inventory` for one
record.  Every operation in the body is total in this model, so the
`except` arm of the source (which counts `errors`) is unreachable. -/
def process_item (cfg : Config) (price_data : String → Option CardData)
    (item : Item) : ItemOutcome :=
  match resolve_item price_data item with
  | none => ItemOutcome.skipNoData
  | some res => price_item cfg res

/-- The `stats` dict of `process_inventory` (lines 292-299). -/
structure Stats where
  total : ℕ
  no_data : ℕ
  no_change : ℕ
  increased : ℕ
  decreased : ℕ
  errors : ℕ
  deriving DecidableEq

/-- Stats/updates accumulation for one record (lines 301-391): bump
`total`, then either bump a skip counter or classify the change and
append the update. -/
def process_fold (cfg : Config) (price_data : String → Option CardData)
    (item : Item) (acc : List Update × Stats) : List Update × Stats :=
  match process_item cfg price_data item with
  | ItemOutcome.skipNoData =>
    (acc.1, { acc.2 with total := acc.2.total + 1, no_data := acc.2.no_data + 1 })
  | ItemOutcome.skipNoChange =>
    (acc.1, { acc.2 with total := acc.2.total + 1, no_change := acc.2.no_change + 1 })
  | ItemOutcome.emit u =>
    if u.new_price > u.current_price then
      (acc.1 ++ [u], { acc.2 with total := acc.2.total + 1, increased := acc.2.increased + 1 })
    else if u.new_price < u.current_price then
      (acc.1 ++ [u], { acc.2 with total := acc.2.total + 1, decreased := acc.2.decreased + 1 })
    else
      (acc.1 ++ [u], { acc.2 with total := acc.2.total + 1 })

/-- `process_inventory` (lines 266-408): fold the per-record body over
the whole inventory, starting from no updates and zeroed stats. -/
def process_inventory (cfg : Config) (price_data : String → Option CardData)
    (inventory : List Item) : List Update × Stats :=
  inventory.foldl (fun acc item => process_fold cfg price_data item acc)
    ([], { total := 0, no_data := 0, no_change := 0, increased := 0, decreased := 0, errors := 0 })

/-! ## Helper lemmas -/

theorem min_clamp_le_result (cfg : Config) (p : ℚ) : p ≤ (min_clamp cfg p).1 := by
  unfold min_clamp
  split_ifs with h
  · exact le_of_lt h
  · exact le_refl p

theorem min_clamp_ge_min (cfg : Config) (p : ℚ) : cfg.min_price ≤ (min_clamp cfg p).1 := by
  unfold min_clamp
  split_ifs with h
  · exact le_refl _
  · exact le_of_not_lt h

theorem reduction_cap_le_result (cfg : Config) (cur p : ℚ) : p ≤ (reduction_cap cfg cur p).1 := by
  unfold reduction_cap
  split_ifs with h1 h2
  · exact le_of_lt h2
  · exact le_refl p
  · exact le_refl p

theorem reduction_cap_ge_min_allowed (cfg : Config) (cur p : ℚ) (h : 0 < cur) :
    cur * (1 - cfg.max_reduction_percent / 100) ≤ (reduction_cap cfg cur p).1 := by
  have key : cur * (1 - cfg.max_reduction_percent / 100)
      = cur - cur * (cfg.max_reduction_percent / 100) := by ring
  unfold reduction_cap
  rw [if_pos h, key]
  split_ifs with h2
  · exact le_refl _
  · exact le_of_not_lt h2

theorem apply_bounds_ge_input (cfg : Config) (cur : ℚ) (pr : ℚ × BaseReason) :
    pr.1 ≤ (apply_bounds cfg cur pr).1 :=
  le_trans (min_clamp_le_result cfg pr.1) (reduction_cap_le_result cfg cur _)

theorem calculate_some_eq (cfg : Config) (cur : ℚ) (nm lp gen : Option ℚ) (p : ℚ) (r : Reason)
    (h : calculate_new_price cfg cur nm lp gen = (some p, r)) :
    ∃ pr, strategy_select cfg nm lp gen = Except.ok pr ∧ p = (apply_bounds cfg cur pr).1 := by
  unfold calculate_new_price at h
  cases hs : strategy_select cfg nm lp gen with
  | error e => rw [hs] at h; simp at h
  | ok pr =>
    rw [hs] at h
    refine ⟨pr, rfl, ?_⟩
    have := congrArg Prod.fst h
    simp only [Option.some.injEq] at this
    exact this.symm

/-! ## Claim theorems -/

/-- C4: whenever `calculate_new_price` returns a price, that price is at
least the configured minimum price, for every strategy, every combination
of present reference prices, and every current price. -/
theorem result_ge_min_price (cfg : Config) (cur : ℚ) (nm lp gen : Option ℚ) (p : ℚ) (r : Reason)
    (h : calculate_new_price cfg cur nm lp gen = (some p, r)) :
    cfg.min_price ≤ p := by
  obtain ⟨pr, _, hp⟩ := calculate_some_eq cfg cur nm lp gen p r h
  rw [hp]
  exact le_trans (min_clamp_ge_min cfg pr.1) (reduction_cap_le_result cfg cur _)

theorem result_ge_min_price_witness :
    (1 / 100 : ℚ) ≤ 2 :=
  result_ge_min_price
    { pricing_strategy := "nm_only", lp_floor_percent := 100,
      min_price := 1 / 100, max_reduction_percent := 5 }
    1 (some 2) none none 2
    { base := BaseReason.nmPrice 2, min_applied := false, cap_applied := false }
    (by
      rw [calculate_new_price, strategy_select]
      rw [if_pos (by decide)]
      norm_num [apply_bounds, min_clamp, reduction_cap])

/-- C1: whenever `calculate_new_price` returns a price and the current
price is strictly positive, the result is at least
`current_price * (1 - max_reduction_percent / 100)`; the reduction cap
itself only ever raises the candidate price; and on the spec's example
(current 10, NM 8, LP+ 8.20, floor 100, max reduction 5, `nm_with_floor`)
the result is 9.50. -/
theorem reduction_is_capped :
    (∀ (cfg : Config) (cur : ℚ) (nm lp gen : Option ℚ) (p : ℚ) (r : Reason),
        0 < cur → calculate_new_price cfg cur nm lp gen = (some p, r) →
        cur * (1 - cfg.max_reduction_percent / 100) ≤ p) ∧
    (∀ (cfg : Config) (cur p : ℚ), p ≤ (reduction_cap cfg cur p).1) ∧
    (calculate_new_price
        { pricing_strategy := "nm_with_floor", lp_floor_percent := 100,
          min_price := 1 / 100, max_reduction_percent := 5 }
        10 (some 8) (some (41 / 5)) none).1 = some (19 / 2) := by
  refine ⟨?_, reduction_cap_le_result, ?_⟩
  · intro cfg cur nm lp gen p r hcur h
    obtain ⟨pr, _, hp⟩ := calculate_some_eq cfg cur nm lp gen p r h
    rw [hp]
    exact reduction_cap_ge_min_allowed cfg cur _ hcur
  · rw [calculate_new_price, strategy_select]
    rw [if_neg (by decide), if_neg (by decide), if_neg (by decide), if_neg (by decide)]
    norm_num [apply_bounds, min_clamp, reduction_cap]

theorem reduction_is_capped_witness :
    0 < (10 : ℚ) ∧ (10 : ℚ) * (1 - 5 / 100) ≤ 19 / 2 :=
  ⟨by norm_num,
   reduction_is_capped.1
     { pricing_strategy := "nm_with_floor", lp_floor_percent := 100,
       min_price := 1 / 100, max_reduction_percent := 5 }
     10 (some 8) (some (41 / 5)) none (19 / 2)
     { base := BaseReason.nmBase 8 (some (41 / 5)), min_applied := false, cap_applied := true }
     (by norm_num)
     (by
       rw [calculate_new_price, strategy_select]
       rw [if_neg (by decide), if_neg (by decide), if_neg (by decide), if_neg (by decide)]
       norm_num [apply_bounds, min_clamp, reduction_cap])⟩

/-- C2: under the `nm_with_floor` strategy the function returns no
decision whenever the NM price is absent; otherwise the pre-clamp
candidate produced by strategy selection equals the NM price, raised to
`LP+ * floor_percent / 100` exactly when the LP+ price is present and
that floor strictly exceeds the NM price. -/
theorem nm_with_floor_selection (cfg : Config) (h : cfg.pricing_strategy = "nm_with_floor")
    (lp gen : Option ℚ) :
    (∀ (cur : ℚ) (g : Option ℚ), (calculate_new_price cfg cur none lp g).1 = none) ∧
    (∀ v : ℚ, ∃ (p : ℚ) (b : BaseReason),
      strategy_select cfg (some v) lp gen = Except.ok (p, b) ∧
      (∀ l, lp = some l → v < l * (cfg.lp_floor_percent / 100) →
          p = l * (cfg.lp_floor_percent / 100)) ∧
      ((¬ ∃ l, lp = some l ∧ v < l * (cfg.lp_floor_percent / 100)) → p = v)) := by
  constructor
  · intro cur g
    rw [calculate_new_price, strategy_select.eq_def, h]
    rw [if_neg (by decide), if_neg (by decide), if_neg (by decide), if_neg (by decide)]
  · intro v
    rw [strategy_select.eq_def, h]
    rw [if_neg (by decide), if_neg (by decide), if_neg (by decide), if_neg (by decide)]
    cases lp with
    | none =>
      refine ⟨v, BaseReason.nmBase v none, rfl, ?_, fun _ => rfl⟩
      intro l hl
      exact absurd hl (by simp)
    | some l =>
      by_cases hv : v < l * (cfg.lp_floor_percent / 100)
      · refine ⟨l * (cfg.lp_floor_percent / 100),
          BaseReason.nmBase v (some (l * (cfg.lp_floor_percent / 100))),
          by simp only [if_pos hv], ?_, ?_⟩
        · intro l' hl' _
          cases hl'
          rfl
        · intro hno
          exact absurd ⟨l, rfl, hv⟩ hno
      · refine ⟨v, BaseReason.nmBase v none, by simp only [if_neg hv], ?_, fun _ => rfl⟩
        intro l' hl' hlt
        cases hl'
        exact absurd hlt hv

theorem nm_with_floor_selection_witness :
    (calculate_new_price
        { pricing_strategy := "nm_with_floor", lp_floor_percent := 100,
          min_price := 1 / 100, max_reduction_percent := 5 }
        3 none (some 2) none).1 = none :=
  (nm_with_floor_selection
    { pricing_strategy := "nm_with_floor", lp_floor_percent := 100,
      min_price := 1 / 100, max_reduction_percent := 5 }
    rfl (some 2) none).1 3 none

/-- C3: for every strategy, when the reference price that strategy
requires is absent the function returns no price together with the
corresponding reason, and the `process_inventory` loop then counts the
record under `no_data` and emits no update instead of raising. -/
theorem missing_reference_no_decision (cfg : Config) (cur : ℚ) :
    (cfg.pricing_strategy = "nm_only" → ∀ lp gen, calculate_new_price cfg cur none lp gen =
      (none, { base := BaseReason.noNMPrice, min_applied := false, cap_applied := false })) ∧
    (cfg.pricing_strategy = "lp_plus" → ∀ nm gen, calculate_new_price cfg cur nm none gen =
      (none, { base := BaseReason.noLPPlusPrice, min_applied := false, cap_applied := false })) ∧
    (cfg.pricing_strategy = "average" → ∀ gen, calculate_new_price cfg cur none none gen =
      (none, { base := BaseReason.noPricingData, min_applied := false, cap_applied := false })) ∧
    (cfg.pricing_strategy = "general_low" → ∀ nm lp, calculate_new_price cfg cur nm lp none =
      (none, { base := BaseReason.noGeneralPrice, min_applied := false, cap_applied := false })) ∧
    (cfg.pricing_strategy = "nm_with_floor" → ∀ lp gen, calculate_new_price cfg cur none lp gen =
      (none, { base := BaseReason.noNMPrice, min_applied := false, cap_applied := false })) ∧
    (∀ (res : Resolved) (r : Reason),
      calculate_new_price cfg res.current_price
          (get_nm_price res.card_data res.finish)
          (get_lp_plus_price res.card_data res.finish)
          (get_general_price res.card_data res.finish) = (none, r) →
      price_item cfg res = ItemOutcome.skipNoData) ∧
    (∀ (pd : String → Option CardData) (item : Item) (updates : List Update) (s : Stats),
      process_item cfg pd item = ItemOutcome.skipNoData →
      process_fold cfg pd item (updates, s) =
        (updates, { s with total := s.total + 1, no_data := s.no_data + 1 })) := by
  refine ⟨?_, ?_, ?_, ?_, ?_, ?_, ?_⟩
  · intro h lp gen
    rw [calculate_new_price, strategy_select.eq_def, h, if_pos (by decide)]
  · intro h nm gen
    rw [calculate_new_price, strategy_select.eq_def, h,
      if_neg (by decide), if_pos (by decide)]
  · intro h gen
    rw [calculate_new_price, strategy_select.eq_def, h,
      if_neg (by decide), if_neg (by decide), if_pos (by decide), if_pos (by decide)]
  · intro h nm lp
    rw [calculate_new_price, strategy_select.eq_def, h,
      if_neg (by decide), if_neg (by decide), if_neg (by decide), if_pos (by decide)]
  · intro h lp gen
    rw [calculate_new_price, strategy_select.eq_def, h,
      if_neg (by decide), if_neg (by decide), if_neg (by decide), if_neg (by decide)]
  · intro res r hcalc
    rw [price_item, hcalc]
  · intro pd item updates s hitem
    rw [process_fold, hitem]

theorem missing_reference_no_decision_witness :
    calculate_new_price
        { pricing_strategy := "nm_only", lp_floor_percent := 100,
          min_price := 1 / 100, max_reduction_percent := 5 }
        1 none (some 2) none =
      (none, { base := BaseReason.noNMPrice, min_applied := false, cap_applied := false }) :=
  (missing_reference_no_decision
    { pricing_strategy := "nm_only", lp_floor_percent := 100,
      min_price := 1 / 100, max_reduction_percent := 5 } 1).1 rfl (some 2) none

/-- C5: under the `nm_with_floor` strategy, whenever the LP+ price is
present and a price is returned, the returned price is at least
`LP+ * floor_percent / 100`: the minimum-price clamp and the reduction
cap only raise the candidate, never push it below the floor. -/
theorem nm_with_floor_lp_bound (cfg : Config) (h : cfg.pricing_strategy = "nm_with_floor")
    (cur : ℚ) (nm : Option ℚ) (l : ℚ) (gen : Option ℚ) (p : ℚ) (r : Reason)
    (hc : calculate_new_price cfg cur nm (some l) gen = (some p, r)) :
    l * (cfg.lp_floor_percent / 100) ≤ p := by
  obtain ⟨pr, hs, hp⟩ := calculate_some_eq cfg cur nm (some l) gen p r hc
  rw [strategy_select.eq_def, h,
    if_neg (by decide), if_neg (by decide), if_neg (by decide), if_neg (by decide)] at hs
  have hge : l * (cfg.lp_floor_percent / 100) ≤ pr.1 := by
    cases nm with
    | none => simp at hs
    | some v =>
      by_cases hv : v < l * (cfg.lp_floor_percent / 100)
      · simp only [if_pos hv] at hs
        cases hs
        exact le_refl _
      · simp only [if_neg hv] at hs
        cases hs
        exact le_of_not_lt hv
  rw [hp]
  exact le_trans hge (apply_bounds_ge_input cfg cur pr)

theorem nm_with_floor_lp_bound_witness :
    (2 : ℚ) * (100 / 100) ≤ 2 :=
  nm_with_floor_lp_bound
    { pricing_strategy := "nm_with_floor", lp_floor_percent := 100,
      min_price := 1 / 100, max_reduction_percent := 5 }
    rfl 0 (some 1) 2 none 2
    { base := BaseReason.nmBase 1 (some 2), min_applied := false, cap_applied := false }
    (by
      rw [calculate_new_price, strategy_select]
      rw [if_neg (by decide), if_neg (by decide), if_neg (by decide), if_neg (by decide)]
      norm_num [apply_bounds, min_clamp, reduction_cap])

/-- C6: under the `average` strategy the pre-clamp candidate is the
arithmetic mean of whichever of the NM and LP+ prices are present, no
decision is returned exactly when both are absent, and on the spec's
example (NM 5, LP+ 7) the returned price is 6. -/
theorem average_selection (cfg : Config) (h : cfg.pricing_strategy = "average") :
    (∀ (cur : ℚ) (gen : Option ℚ), (calculate_new_price cfg cur none none gen).1 = none) ∧
    (∀ (a y : ℚ) (gen : Option ℚ), ∃ pr,
      strategy_select cfg (some a) (some y) gen = Except.ok pr ∧ pr.1 = (a + y) / 2) ∧
    (∀ (a : ℚ) (gen : Option ℚ), ∃ pr,
      strategy_select cfg (some a) none gen = Except.ok pr ∧ pr.1 = a) ∧
    (∀ (y : ℚ) (gen : Option ℚ), ∃ pr,
      strategy_select cfg none (some y) gen = Except.ok pr ∧ pr.1 = y) ∧
    (calculate_new_price
        { pricing_strategy := "average", lp_floor_percent := 100,
          min_price := 1 / 100, max_reduction_percent := 5 }
        6 (some 5) (some 7) none).1 = some 6 := by
  refine ⟨?_, ?_, ?_, ?_, ?_⟩
  · intro cur gen
    rw [calculate_new_price, strategy_select.eq_def, h,
      if_neg (by decide), if_neg (by decide), if_pos (by decide), if_pos (by decide)]
  · intro a y gen
    rw [strategy_select.eq_def, h,
      if_neg (by decide), if_neg (by decide), if_pos (by decide)]
    rw [if_neg (by simp [List.filterMap_cons])]
    refine ⟨_, rfl, ?_⟩
    simp [List.filterMap_cons]
  · intro a gen
    rw [strategy_select.eq_def, h,
      if_neg (by decide), if_neg (by decide), if_pos (by decide)]
    rw [if_neg (by simp [List.filterMap_cons])]
    refine ⟨_, rfl, ?_⟩
    simp [List.filterMap_cons]
  · intro y gen
    rw [strategy_select.eq_def, h,
      if_neg (by decide), if_neg (by decide), if_pos (by decide)]
    rw [if_neg (by simp [List.filterMap_cons])]
    refine ⟨_, rfl, ?_⟩
    simp [List.filterMap_cons]
  · rw [calculate_new_price, strategy_select]
    rw [if_neg (by decide), if_neg (by decide), if_pos (by decide), if_neg (by decide)]
    norm_num [apply_bounds, min_clamp, reduction_cap, List.filterMap_cons, List.sum_cons]

theorem average_selection_witness :
    (calculate_new_price
        { pricing_strategy := "average", lp_floor_percent := 100,
          min_price := 1 / 100, max_reduction_percent := 5 }
        6 (some 5) (some 7) none).1 = some 6 :=
  (average_selection
    { pricing_strategy := "average", lp_floor_percent := 100,
      min_price := 1 / 100, max_reduction_percent := 5 } rfl).2.2.2.2

/-- C7: for every resolved inventory record on which
`calculate_new_price` returns a price, the caller rounds the price to 2
decimal places; when the rounded price differs from the current price by
less than 0.01 the record is dropped (no update emitted) and counted
under `no_change`, and otherwise the emitted update carries the rounded
price. -/
theorem rounding_and_no_change (cfg : Config) (res : Resolved) (p : ℚ) (r : Reason)
    (h : calculate_new_price cfg res.current_price
        (get_nm_price res.card_data res.finish)
        (get_lp_plus_price res.card_data res.finish)
        (get_general_price res.card_data res.finish) = (some p, r)) :
    (|round2 p - res.current_price| < 1 / 100 →
      price_item cfg res = ItemOutcome.skipNoChange) ∧
    (¬ |round2 p - res.current_price| < 1 / 100 →
      ∃ u, price_item cfg res = ItemOutcome.emit u ∧ u.new_price = round2 p ∧
        u.price_cents = py_int (round2 p * 100)) ∧
    (∀ (pd : String → Option CardData) (item : Item) (updates : List Update) (s : Stats),
      process_item cfg pd item = ItemOutcome.skipNoChange →
      process_fold cfg pd item (updates, s) =
        (updates, { s with total := s.total + 1, no_change := s.no_change + 1 })) := by
  refine ⟨?_, ?_, ?_⟩
  · intro hlt
    rw [price_item, h]
    simp only [if_pos hlt]
  · intro hge
    refine ⟨{ scryfall_id := res.lookup_id, finish_id := res.finish,
              condition_id := res.condition, language_id := res.language,
              price_cents := py_int (round2 p * 100), quantity := res.quantity,
              name := res.name, set := res.set, current_price := res.current_price,
              new_price := round2 p, reason := r, matched_by := res.matched_by },
      ?_, rfl, rfl⟩
    rw [price_item, h]
    simp only [if_neg hge]
  · intro pd item updates s hitem
    rw [process_fold, hitem]

theorem rounding_and_no_change_witness :
    price_item
      { pricing_strategy := "nm_only", lp_floor_percent := 100,
        min_price := 1 / 100, max_reduction_percent := 5 }
      { card_data :=
          { price_cents_nm := some 500, price_cents_nm_foil := none,
            price_cents_nm_etched := none, price_cents_lp_plus := none,
            price_cents_lp_plus_foil := none, price_cents_lp_plus_etched := none,
            price_cents := none, price_cents_foil := none, price_cents_etched := none },
        finish := "NF", condition := "NM", language := "en", name := "Unknown",
        set := "???", current_price := 5, lookup_id := "abc",
        matched_by := "scryfall_id", quantity := 1 } = ItemOutcome.skipNoChange :=
  (rounding_and_no_change
    { pricing_strategy := "nm_only", lp_floor_percent := 100,
      min_price := 1 / 100, max_reduction_percent := 5 }
    { card_data :=
        { price_cents_nm := some 500, price_cents_nm_foil := none,
          price_cents_nm_etched := none, price_cents_lp_plus := none,
          price_cents_lp_plus_foil := none, price_cents_lp_plus_etched := none,
          price_cents := none, price_cents_foil := none, price_cents_etched := none },
      finish := "NF", condition := "NM", language := "en", name := "Unknown",
      set := "???", current_price := 5, lookup_id := "abc",
      matched_by := "scryfall_id", quantity := 1 }
    5 { base := BaseReason.nmPrice 5, min_applied := false, cap_applied := false }
    (by
      show calculate_new_price _ 5
        (get_nm_price
          { price_cents_nm := some 500, price_cents_nm_foil := none,
            price_cents_nm_etched := none, price_cents_lp_plus := none,
            price_cents_lp_plus_foil := none, price_cents_lp_plus_etched := none,
            price_cents := none, price_cents_foil := none, price_cents_etched := none }
          "NF")
        (get_lp_plus_price
          { price_cents_nm := some 500, price_cents_nm_foil := none,
            price_cents_nm_etched := none, price_cents_lp_plus := none,
            price_cents_lp_plus_foil := none, price_cents_lp_plus_etched := none,
            price_cents := none, price_cents_foil := none, price_cents_etched := none }
          "NF")
        (get_general_price
          { price_cents_nm := some 500, price_cents_nm_foil := none,
            price_cents_nm_etched := none, price_cents_lp_plus := none,
            price_cents_lp_plus_foil := none, price_cents_lp_plus_etched := none,
            price_cents := none, price_cents_foil := none, price_cents_etched := none }
          "NF")
        = (some 5, { base := BaseReason.nmPrice 5, min_applied := false, cap_applied := false })
      rw [get_nm_price, if_pos rfl, get_lp_plus_price, if_pos rfl, get_general_price, if_pos rfl]
      rw [calculate_new_price, strategy_select.eq_def, if_pos (by decide)]
      norm_num [apply_bounds, min_clamp, reduction_cap])).1
    (by norm_num [round2])

theorem process_fold_stats_step (cfg : Config) (pd : String → Option CardData)
    (item : Item) (acc : List Update × Stats) :
    (process_fold cfg pd item acc).2.total = acc.2.total + 1 ∧
    (process_fold cfg pd item acc).2.errors = acc.2.errors := by
  cases hpi : process_item cfg pd item with
  | skipNoData => simp [process_fold, hpi]
  | skipNoChange => simp [process_fold, hpi]
  | emit u =>
    simp only [process_fold, hpi]
    split_ifs <;> exact ⟨rfl, rfl⟩

theorem process_foldl_stats (cfg : Config) (pd : String → Option CardData)
    (l : List Item) : ∀ acc : List Update × Stats,
    (l.foldl (fun a i => process_fold cfg pd i a) acc).2.total = acc.2.total + l.length ∧
    (l.foldl (fun a i => process_fold cfg pd i a) acc).2.errors = acc.2.errors := by
  induction l with
  | nil => intro acc; simp
  | cons i is ih =>
    intro acc
    rw [List.foldl_cons]
    refine ⟨?_, ?_⟩
    · rw [(ih _).1, (process_fold_stats_step cfg pd i acc).1, List.length_cons]
      omega
    · rw [(ih _).2, (process_fold_stats_step cfg pd i acc).2]

/-- C8: the per-record loop of `process_inventory` never aborts: a
record with no nested single data is skipped and counted under
`no_data`, a record with neither a truthy scryfall identifier nor a
truthy product identifier is likewise skipped and counted, every record
of the inventory is processed exactly once (`total` equals the
inventory length), and the error counter — fed only by the `except` arm,
unreachable here because every operation of the body is total — stays
zero. -/
theorem linkage_skip_and_continuity (cfg : Config) (pd : String → Option CardData) :
    (∀ item : Item, item.product = none → process_item cfg pd item = ItemOutcome.skipNoData) ∧
    (∀ (item : Item) (pr : Product), item.product = some pr → pr.single = none →
      process_item cfg pd item = ItemOutcome.skipNoData) ∧
    (∀ (item : Item) (pr : Product) (sg : Single), item.product = some pr → pr.single = some sg →
      strTruthy sg.scryfall_id = none → strTruthy pr.id = none →
      process_item cfg pd item = ItemOutcome.skipNoData) ∧
    (∀ inventory : List Item,
      (process_inventory cfg pd inventory).2.total = inventory.length ∧
      (process_inventory cfg pd inventory).2.errors = 0) := by
  refine ⟨?_, ?_, ?_, ?_⟩
  · intro item hprod
    rw [process_item, resolve_item.eq_def, hprod]
  · intro item pr hprod hsing
    rw [process_item, resolve_item.eq_def, hprod]
    simp only [hsing]
  · intro item pr sg hprod hsing hscry hpid
    rw [process_item, resolve_item.eq_def, hprod]
    simp only [hsing, hscry, hpid]
  · intro inventory
    have h := process_foldl_stats cfg pd inventory
      ([], { total := 0, no_data := 0, no_change := 0, increased := 0, decreased := 0, errors := 0 })
    exact ⟨by rw [process_inventory, h.1]; simp, by rw [process_inventory, h.2]⟩

theorem linkage_skip_and_continuity_witness :
    process_item
      { pricing_strategy := "nm_only", lp_floor_percent := 100,
        min_price := 1 / 100, max_reduction_percent := 5 }
      (fun _ => none)
      { product := none, price_cents := none, quantity := none } = ItemOutcome.skipNoData :=
  (linkage_skip_and_continuity
    { pricing_strategy := "nm_only", lp_floor_percent := 100,
      min_price := 1 / 100, max_reduction_percent := 5 }
    (fun _ => none)).1
    { product := none, price_cents := none, quantity := none } rfl

/-- C9: under the `average` strategy the output of
`calculate_new_price` does not depend on the general/market price: two
calls that agree on everything else, but differ in the general price,
return the same (price, reason) pair. -/
theorem average_ignores_general_price (cfg : Config) (h : cfg.pricing_strategy = "average")
    (cur : ℚ) (nm lp g1 g2 : Option ℚ) :
    calculate_new_price cfg cur nm lp g1 = calculate_new_price cfg cur nm lp g2 := by
  have hsel : strategy_select cfg nm lp g1 = strategy_select cfg nm lp g2 := by
    rw [strategy_select.eq_def, strategy_select.eq_def, h]
    conv_lhs => rw [if_neg (by decide), if_neg (by decide), if_pos (by decide)]
    conv_rhs => rw [if_neg (by decide), if_neg (by decide), if_pos (by decide)]
  rw [calculate_new_price, calculate_new_price, hsel]

theorem average_ignores_general_price_witness :
    calculate_new_price
      { pricing_strategy := "average", lp_floor_percent := 100,
        min_price := 1 / 100, max_reduction_percent := 5 }
      1 (some 2) none (some 3) =
    calculate_new_price
      { pricing_strategy := "average", lp_floor_percent := 100,
        min_price := 1 / 100, max_reduction_percent := 5 }
      1 (some 2) none none :=
  average_ignores_general_price
    { pricing_strategy := "average", lp_floor_percent := 100,
      min_price := 1 / 100, max_reduction_percent := 5 }
    rfl 1 (some 2) none (some 3) none

/-- C10: every strategy string other than `nm_only`, `lp_plus`,
`average` and `general_low` — not only the literal `nm_with_floor` —
runs the `nm_with_floor` catch-all branch, so `calculate_new_price`
returns exactly the same (price, reason) pair as it does with the
strategy set to `nm_with_floor`, for all inputs. -/
theorem unknown_strategy_defaults_to_floor (cfg : Config)
    (h1 : cfg.pricing_strategy ≠ "nm_only") (h2 : cfg.pricing_strategy ≠ "lp_plus")
    (h3 : cfg.pricing_strategy ≠ "average") (h4 : cfg.pricing_strategy ≠ "general_low")
    (cur : ℚ) (nm lp gen : Option ℚ) :
    calculate_new_price cfg cur nm lp gen =
      calculate_new_price { cfg with pricing_strategy := "nm_with_floor" } cur nm lp gen := by
  have hsel : strategy_select cfg nm lp gen =
      strategy_select { cfg with pricing_strategy := "nm_with_floor" } nm lp gen := by
    rw [strategy_select.eq_def, strategy_select.eq_def]
    rw [show ({ cfg with pricing_strategy := "nm_with_floor" } : Config).pricing_strategy
      = "nm_with_floor" from rfl]
    conv_lhs => rw [if_neg h1, if_neg h2, if_neg h3, if_neg h4]
    conv_rhs => rw [if_neg (by decide), if_neg (by decide), if_neg (by decide),
      if_neg (by decide)]
  rw [calculate_new_price, calculate_new_price, hsel]
  rfl

theorem unknown_strategy_defaults_to_floor_witness :
    calculate_new_price
      { pricing_strategy := "bogus", lp_floor_percent := 100,
        min_price := 1 / 100, max_reduction_percent := 5 }
      1 (some 2) none none =
    calculate_new_price
      { pricing_strategy := "nm_with_floor", lp_floor_percent := 100,
        min_price := 1 / 100, max_reduction_percent := 5 }
      1 (some 2) none none :=
  unknown_strategy_defaults_to_floor
    { pricing_strategy := "bogus", lp_floor_percent := 100,
      min_price := 1 / 100, max_reduction_percent := 5 }
    (by decide) (by decide) (by decide) (by decide) 1 (some 2) none none

end Repricer
